import Mathlib

/-!
Shallow embedding of the dismissible-widget state machines of the CoreUI
React component build: `CAlert` (alert with optional dismiss button) and
`CToast` (toast with auto-hide timer), together with the class-name
computation and attribute-passthrough rendering surface, and the prop
defaulting of both widgets.  Every definition is translated from the
JSX/TypeScript source; the react-transition-group `Transition` element is
embedded by its four-status automaton (`exited`, `entering`, `entered`,
`exiting`) with `onEnter` firing when an enter begins, `onExit` when an
exit begins, and `onExited` when an exit completes.
-/

/-- String literal constants used by the rendering surface. -/
def kClassName : String := "className"

def kRole : String := "role"

def kAriaLive : String := "aria-live"

def kAriaAtomic : String := "aria-atomic"

def kAssertive : String := "assertive"

def kTrue : String := "true"

def kAlertWord : String := "alert"

def kShow : String := "show"

def kShowing : String := "showing"

def kFade : String := "fade"

def kToastWord : String := "toast"

def kBorder0 : String := "border-0"

def kBgDash : String := "bg-"

def kAlertDash : String := "alert-"

def kSpTextWhite : String := " text-white"

def kAlertDismissibleFade : String := "alert-dismissible fade"

def kSolid : String := "solid"

def kPrimary : String := "primary"

def kType : String := "type"

def kRange : String := "range"

def kStep : String := "step"

def kFormRange : String := "form-range"

/-- Status of a react-transition-group `Transition` element. -/
inductive TState
  | exited
  | entering
  | entered
  | exiting
deriving DecidableEq, Repr

/-- Resolved props of `CToast` (after destructuring defaults).
`index` is `Option Int` (`none` is JS `undefined`); `delay` is `Int` so
that zero and negative delays are representable, as the source performs
no validation on it. -/
structure CToastProps where
  animation : Bool
  autohide : Bool
  className : Option String
  color : Option String
  delay : Int
  index : Option Int
  visible : Bool
deriving DecidableEq, Repr

/-- Supplied (pre-default) props of `CToast`: `none` is an omitted prop. -/
structure CToastPropsIn where
  animation : Option Bool
  autohide : Option Bool
  className : Option String
  color : Option String
  delay : Option Int
  index : Option Int
  visible : Option Bool
deriving DecidableEq, Repr

/-- Destructuring defaults of `CToast`:
`animation = true, autohide = true, delay = 5000, visible = false`. -/
def resolveToastProps (i : CToastPropsIn) : CToastProps :=
  { animation := i.animation.getD true
    autohide := i.autohide.getD true
    className := i.className
    color := i.color
    delay := i.delay.getD 5000
    index := i.index
    visible := i.visible.getD false }

/-- The empty prop record: every `CToast` prop omitted. -/
def emptyToastIn : CToastPropsIn :=
  { animation := none, autohide := none, className := none, color := none,
    delay := none, index := none, visible := none }

/-- Resolved props of `CAlert` (after destructuring defaults). -/
structure CAlertProps where
  className : Option String
  color : String
  dismissible : Bool
  variant : Option String
  visible : Bool
deriving DecidableEq, Repr

/-- Supplied (pre-default) props of `CAlert`. -/
structure CAlertPropsIn where
  className : Option String
  color : Option String
  dismissible : Option Bool
  variant : Option String
  visible : Option Bool
deriving DecidableEq, Repr

/-- Destructuring defaults of `CAlert`: `color = 'primary', visible = true`;
an omitted `dismissible` is `undefined`, hence falsy. -/
def resolveAlertProps (i : CAlertPropsIn) : CAlertProps :=
  { className := i.className
    color := i.color.getD kPrimary
    dismissible := i.dismissible.getD false
    variant := i.variant
    visible := i.visible.getD true }

/-- The empty prop record: every `CAlert` prop omitted. -/
def emptyAlertIn : CAlertPropsIn :=
  { className := none, color := none, dismissible := none, variant := none,
    visible := none }

/-- JS truthiness of an optional number (`undefined` and `0` are falsy). -/
def jsTruthy : Option Int → Bool
  | some i => decide (i ≠ 0)
  | none => false

/-- The argument `CToast` passes to `onShow` and `onClose`:
`index ? index : null` (so `0` and `undefined` both become `null`). -/
def toastCallbackArg (index : Option Int) : Option Int :=
  if jsTruthy index then index else none

/-- Runtime state of a mounted `CToast` instance.  `now` is the current
time in milliseconds; `timer` holds the absolute fire time of the pending
`window.setTimeout`, if armed; `propVisible` is the `visible` prop as of
the last render (the `useEffect` dependency); `visibleS` is the
`_visible` `useState` cell; `trans` the `Transition` status.
`onShowCount`/`onCloseCount` count callback invocations and
`lastShowArg`/`lastCloseArg` record the argument of the last one. -/
structure ToastState where
  now : Int
  mounted : Bool
  propVisible : Bool
  visibleS : Bool
  trans : TState
  timer : Option Int
  onShowCount : Nat
  onCloseCount : Nat
  lastShowArg : Option (Option Int)
  lastCloseArg : Option (Option Int)
deriving DecidableEq, Repr

/-- `CToast`'s `_autohide`: when `autohide` is set, clear the pending
timeout and arm a fresh one for `delay` milliseconds from now (the delay
value is used unvalidated). -/
def CToast_autohide (p : CToastProps) (s : ToastState) : ToastState :=
  if p.autohide then { s with timer := some (s.now + p.delay) } else s

/-- The `Transition` element of `CToast` reacting to a change of its `in`
prop (`in = _visible`): an enter begun from `exited`/`exiting` fires
`onEnter`, which calls `onShow(index ? index : null)`; an exit begun from
`entering`/`entered` fires `onExit` (unused by `CToast`). -/
def toastUpdateTransition (p : CToastProps) (s : ToastState) (b : Bool) :
    ToastState :=
  match b, s.trans with
  | true, TState.exited =>
      { s with trans := TState.entering, onShowCount := s.onShowCount + 1,
               lastShowArg := some (toastCallbackArg p.index) }
  | true, TState.exiting =>
      { s with trans := TState.entering, onShowCount := s.onShowCount + 1,
               lastShowArg := some (toastCallbackArg p.index) }
  | false, TState.entering => { s with trans := TState.exiting }
  | false, TState.entered => { s with trans := TState.exiting }
  | _, _ => s

/-- `setVisible b` on `CToast`: a write of the same value bails out with
no re-render (React `useState`); otherwise `_visible` changes, the
`useEffect` with dependency `[_visible]` re-runs `_autohide`, and the
`Transition` element sees the new `in` value. -/
def toastSetVisible (p : CToastProps) (s : ToastState) (b : Bool) :
    ToastState :=
  if b = s.visibleS then s
  else toastUpdateTransition p (CToast_autohide p { s with visibleS := b }) b

/-- A parent re-render supplying the `visible` prop: the `useEffect` with
dependency `[visible]` runs `setVisible(visible)` only when the prop value
changed. -/
def toastSetProp (p : CToastProps) (s : ToastState) (v : Bool) : ToastState :=
  if v = s.propVisible then s
  else toastSetVisible p { s with propVisible := v } v

/-- The `Transition` timeout (250 ms) elapsing: `entering` completes into
`entered`; `exiting` completes into `exited`, firing `onExited`, which
calls `onClose(index ? index : null)`. -/
def toastTransitionDone (p : CToastProps) (s : ToastState) : ToastState :=
  match s.trans with
  | TState.entering => { s with trans := TState.entered }
  | TState.exiting =>
      { s with trans := TState.exited, onCloseCount := s.onCloseCount + 1,
               lastCloseArg := some (toastCallbackArg p.index) }
  | _ => s

/-- Events a mounted `CToast` instance can receive.  `advance d` is the
passage of `d` milliseconds; `timerFire` the pending `setTimeout` callback
running; `transitionDone` the `Transition` timeout elapsing; `ctxClose` a
`setVisible(false)` through the toast context (the dismiss button);
`setProp v` a parent re-render with `visible = v`. -/
inductive TEvent
  | advance (d : Int)
  | timerFire
  | transitionDone
  | mouseEnter
  | mouseLeave
  | setProp (v : Bool)
  | ctxClose
  | unmount
deriving DecidableEq, Repr

/-- Guard of each event: everything requires a mounted instance, time only
moves forward, and the timeout callback can only run once its fire time
has been reached. -/
def toastCanStep (s : ToastState) : TEvent → Bool
  | TEvent.advance d => s.mounted && decide (0 ≤ d)
  | TEvent.timerFire =>
      s.mounted &&
        (match s.timer with
         | some t => decide (t ≤ s.now)
         | none => false)
  | _ => s.mounted

/-- Effect of each event on a `CToast` instance.  `mouseEnter` runs
`clearTimeout(timeout.current)`; `mouseLeave` is the identity because the
source handler is `() => _autohide` — it references `_autohide` without
calling it; `unmount` runs the cleanup effect `clearTimeout`. -/
def toastStep (p : CToastProps) (s : ToastState) : TEvent → ToastState
  | TEvent.advance d => { s with now := s.now + d }
  | TEvent.timerFire => toastSetVisible p { s with timer := none } false
  | TEvent.transitionDone => toastTransitionDone p s
  | TEvent.mouseEnter => { s with timer := none }
  | TEvent.mouseLeave => s
  | TEvent.setProp v => toastSetProp p s v
  | TEvent.ctxClose => toastSetVisible p s false
  | TEvent.unmount => { s with mounted := false, timer := none }

/-- Run a list of events. -/
def toastRun (p : CToastProps) : ToastState → List TEvent → ToastState
  | s, [] => s
  | s, e :: es => toastRun p (toastStep p s e) es

/-- Validity of an event list: every event's guard holds when it occurs. -/
def toastValid (p : CToastProps) : ToastState → List TEvent → Bool
  | _, [] => true
  | s, e :: es => toastCanStep s e && toastValid p (toastStep p s e) es

/-- Spontaneous events: those not involving a parent prop write, the
context close button, or unmount. -/
def spontEvent : TEvent → Bool
  | TEvent.advance _ => true
  | TEvent.timerFire => true
  | TEvent.transitionDone => true
  | TEvent.mouseEnter => true
  | TEvent.mouseLeave => true
  | _ => false

/-- Mounting a `CToast` at time `t0`: `useState(false)` starts hidden with
the `Transition` in `exited`; on mount the effect `[visible]` runs
`setVisible(visible)` and the effect `[_visible]` runs `_autohide`. -/
def CToast_mount (p : CToastProps) (t0 : Int) : ToastState :=
  let s0 : ToastState :=
    { now := t0, mounted := true, propVisible := p.visible,
      visibleS := false, trans := TState.exited, timer := none,
      onShowCount := 0, onCloseCount := 0,
      lastShowArg := none, lastCloseArg := none }
  CToast_autohide p (toastSetVisible p s0 p.visible)

/-- Runtime state of a mounted `CAlert` instance. -/
structure AlertState where
  propVisible : Bool
  visibleS : Bool
  trans : TState
  onCloseCount : Nat
deriving DecidableEq, Repr

/-- The `Transition` element of `CAlert` reacting to a change of its `in`
prop: an exit begun from `entering`/`entered` fires `onExit`, which is the
`onClose` callback of `CAlert` (so `onClose` fires when the dismiss
transition begins, not when it completes). -/
def alertUpdateTransition (s : AlertState) (b : Bool) : AlertState :=
  match b, s.trans with
  | true, TState.exited => { s with trans := TState.entering }
  | true, TState.exiting => { s with trans := TState.entering }
  | false, TState.entering =>
      { s with trans := TState.exiting, onCloseCount := s.onCloseCount + 1 }
  | false, TState.entered =>
      { s with trans := TState.exiting, onCloseCount := s.onCloseCount + 1 }
  | _, _ => s

/-- `setVisible b` on `CAlert`. -/
def alertSetVisible (s : AlertState) (b : Bool) : AlertState :=
  if b = s.visibleS then s
  else alertUpdateTransition { s with visibleS := b } b

/-- A parent re-render supplying the `visible` prop to `CAlert`. -/
def alertSetProp (s : AlertState) (v : Bool) : AlertState :=
  if v = s.propVisible then s
  else alertSetVisible { s with propVisible := v } v

/-- The `Transition` timeout (150 ms) of `CAlert` elapsing. -/
def alertTransitionDone (s : AlertState) : AlertState :=
  match s.trans with
  | TState.entering => { s with trans := TState.entered }
  | TState.exiting => { s with trans := TState.exited }
  | _ => s

/-- Events a mounted `CAlert` instance can receive: `closeClick` is a
click on the `CCloseButton`, rendered only when `dismissible`. -/
inductive AEvent
  | setProp (v : Bool)
  | closeClick
  | transitionDone
deriving DecidableEq, Repr

/-- Effect of each event on a `CAlert` instance. -/
def alertStep (p : CAlertProps) (s : AlertState) : AEvent → AlertState
  | AEvent.setProp v => alertSetProp s v
  | AEvent.closeClick => if p.dismissible then alertSetVisible s false else s
  | AEvent.transitionDone => alertTransitionDone s

/-- Mounting a `CAlert`: `useState(visible)` starts at the prop value and
the `Transition` (no `appear`) starts `entered` when `in` is initially
true, `exited` (unmounted content, via `mountOnEnter`) otherwise. -/
def CAlert_mount (p : CAlertProps) : AlertState :=
  { propVisible := p.visible, visibleS := p.visible,
    trans := if p.visible then TState.entered else TState.exited,
    onCloseCount := 0 }

/-- Whether the widget's content is currently rendered (`unmountOnExit`
removes it in the `exited` status). -/
def rendered (t : TState) : Bool :=
  decide (t ≠ TState.exited)

/-- The `classNames` helper: join the non-empty class strings with spaces. -/
def joinClasses (xs : List String) : String :=
  String.intercalate " " (xs.filter (fun x => !x.isEmpty))

/-- `CAlert`'s `_className` computation. -/
def alertClassName (p : CAlertProps) : String :=
  joinClasses
    [kAlertWord,
     (if p.variant = some kSolid then kBgDash ++ p.color ++ kSpTextWhite
      else kAlertDash ++ p.color),
     (if p.dismissible then kAlertDismissibleFade else String.mk []),
     p.className.getD (String.mk [])]

/-- `CAlert`'s `getTransitionClass`: `'show'` only once `entered`. -/
def alertTransitionClass (t : TState) : String :=
  if t = TState.entered then kShow else String.mk []

/-- `CToast`'s `_className` computation. -/
def toastClassName (p : CToastProps) : String :=
  joinClasses
    [kToastWord,
     (if p.animation then kFade else String.mk []),
     (match p.color with
      | some c => kBgDash ++ c
      | none => String.mk []),
     (if p.color.isSome then kBorder0 else String.mk []),
     p.className.getD (String.mk [])]

/-- `CToast`'s `getTransitionClass`. -/
def toastTransitionClass (t : TState) : String :=
  match t with
  | TState.entering => kShowing
  | TState.entered => kShow
  | TState.exiting => kShowing
  | TState.exited => kFade

/-- A rendered DOM attribute: name and value. -/
abbrev Attr := String × String

/-- Attribute lookup with JSX spread semantics: a later entry overrides an
earlier one of the same name. -/
def getAttr : List Attr → String → Option String
  | [], _ => none
  | a :: as, n =>
      match getAttr as n with
      | some v => some v
      | none => if a.1 = n then some a.2 else none

/-- The attribute list of `CAlert`'s root `div`: `className` and `role`
are written first, then `{...rest}` is spread. -/
def CAlert_rootAttrs (p : CAlertProps) (t : TState) (rest : List Attr) :
    List Attr :=
  [(kClassName, joinClasses [alertClassName p, alertTransitionClass t]),
   (kRole, kAlertWord)] ++ rest

/-- The attribute list of `CToast`'s root `div`: `className`, the two
aria attributes and `role` are written first, then `{...rest}` is
spread. -/
def CToast_rootAttrs (p : CToastProps) (t : TState) (rest : List Attr) :
    List Attr :=
  [(kClassName, joinClasses [toastClassName p, toastTransitionClass t]),
   (kAriaLive, kAssertive), (kAriaAtomic, kTrue), (kRole, kAlertWord)] ++ rest

/-- Modelled from the spec: the `CFormRange` implementation is absent from
the sources (only its type declaration `CFormRange.d.ts` is present); per
the spec, out-of-range values for numeric props such as `steps` are
"passed through uninterpreted to the underlying markup", so its root
`input` element carries the `steps` value verbatim with no validation. -/
def CFormRange_rootAttrs (steps : Int) : List Attr :=
  [(kType, kRange), (kClassName, kFormRange), (kStep, toString steps)]

/-! Projection lemmas for the state-machine functions. -/

@[simp] theorem CToast_autohide_now (p : CToastProps) (s : ToastState) :
    (CToast_autohide p s).now = s.now := by
  unfold CToast_autohide
  split <;> rfl

@[simp] theorem CToast_autohide_mounted (p : CToastProps) (s : ToastState) :
    (CToast_autohide p s).mounted = s.mounted := by
  unfold CToast_autohide
  split <;> rfl

@[simp] theorem CToast_autohide_propVisible (p : CToastProps)
    (s : ToastState) : (CToast_autohide p s).propVisible = s.propVisible := by
  unfold CToast_autohide
  split <;> rfl

@[simp] theorem CToast_autohide_visibleS (p : CToastProps) (s : ToastState) :
    (CToast_autohide p s).visibleS = s.visibleS := by
  unfold CToast_autohide
  split <;> rfl

@[simp] theorem CToast_autohide_trans (p : CToastProps) (s : ToastState) :
    (CToast_autohide p s).trans = s.trans := by
  unfold CToast_autohide
  split <;> rfl

@[simp] theorem CToast_autohide_onShowCount (p : CToastProps)
    (s : ToastState) : (CToast_autohide p s).onShowCount = s.onShowCount := by
  unfold CToast_autohide
  split <;> rfl

@[simp] theorem CToast_autohide_onCloseCount (p : CToastProps)
    (s : ToastState) :
    (CToast_autohide p s).onCloseCount = s.onCloseCount := by
  unfold CToast_autohide
  split <;> rfl

@[simp] theorem CToast_autohide_lastShowArg (p : CToastProps)
    (s : ToastState) : (CToast_autohide p s).lastShowArg = s.lastShowArg := by
  unfold CToast_autohide
  split <;> rfl

@[simp] theorem CToast_autohide_lastCloseArg (p : CToastProps)
    (s : ToastState) :
    (CToast_autohide p s).lastCloseArg = s.lastCloseArg := by
  unfold CToast_autohide
  split <;> rfl

@[simp] theorem toastUpdateTransition_now (p : CToastProps) (s : ToastState)
    (b : Bool) : (toastUpdateTransition p s b).now = s.now := by
  unfold toastUpdateTransition
  split <;> rfl

@[simp] theorem toastUpdateTransition_mounted (p : CToastProps)
    (s : ToastState) (b : Bool) :
    (toastUpdateTransition p s b).mounted = s.mounted := by
  unfold toastUpdateTransition
  split <;> rfl

@[simp] theorem toastUpdateTransition_propVisible (p : CToastProps)
    (s : ToastState) (b : Bool) :
    (toastUpdateTransition p s b).propVisible = s.propVisible := by
  unfold toastUpdateTransition
  split <;> rfl

@[simp] theorem toastUpdateTransition_visibleS (p : CToastProps)
    (s : ToastState) (b : Bool) :
    (toastUpdateTransition p s b).visibleS = s.visibleS := by
  unfold toastUpdateTransition
  split <;> rfl

@[simp] theorem toastUpdateTransition_timer (p : CToastProps)
    (s : ToastState) (b : Bool) :
    (toastUpdateTransition p s b).timer = s.timer := by
  unfold toastUpdateTransition
  split <;> rfl

@[simp] theorem toastUpdateTransition_onCloseCount (p : CToastProps)
    (s : ToastState) (b : Bool) :
    (toastUpdateTransition p s b).onCloseCount = s.onCloseCount := by
  unfold toastUpdateTransition
  split <;> rfl

@[simp] theorem toastUpdateTransition_lastCloseArg (p : CToastProps)
    (s : ToastState) (b : Bool) :
    (toastUpdateTransition p s b).lastCloseArg = s.lastCloseArg := by
  unfold toastUpdateTransition
  split <;> rfl

@[simp] theorem toastTransitionDone_now (p : CToastProps) (s : ToastState) :
    (toastTransitionDone p s).now = s.now := by
  unfold toastTransitionDone
  split <;> rfl

@[simp] theorem toastTransitionDone_mounted (p : CToastProps)
    (s : ToastState) : (toastTransitionDone p s).mounted = s.mounted := by
  unfold toastTransitionDone
  split <;> rfl

@[simp] theorem toastTransitionDone_propVisible (p : CToastProps)
    (s : ToastState) :
    (toastTransitionDone p s).propVisible = s.propVisible := by
  unfold toastTransitionDone
  split <;> rfl

@[simp] theorem toastTransitionDone_visibleS (p : CToastProps)
    (s : ToastState) : (toastTransitionDone p s).visibleS = s.visibleS := by
  unfold toastTransitionDone
  split <;> rfl

@[simp] theorem toastTransitionDone_timer (p : CToastProps) (s : ToastState) :
    (toastTransitionDone p s).timer = s.timer := by
  unfold toastTransitionDone
  split <;> rfl

@[simp] theorem toastTransitionDone_onShowCount (p : CToastProps)
    (s : ToastState) :
    (toastTransitionDone p s).onShowCount = s.onShowCount := by
  unfold toastTransitionDone
  split <;> rfl

@[simp] theorem toastTransitionDone_lastShowArg (p : CToastProps)
    (s : ToastState) :
    (toastTransitionDone p s).lastShowArg = s.lastShowArg := by
  unfold toastTransitionDone
  split <;> rfl

@[simp] theorem toastSetVisible_now (p : CToastProps) (s : ToastState)
    (b : Bool) : (toastSetVisible p s b).now = s.now := by
  unfold toastSetVisible
  split <;> simp

@[simp] theorem toastSetVisible_mounted (p : CToastProps) (s : ToastState)
    (b : Bool) : (toastSetVisible p s b).mounted = s.mounted := by
  unfold toastSetVisible
  split <;> simp

@[simp] theorem toastSetVisible_propVisible (p : CToastProps)
    (s : ToastState) (b : Bool) :
    (toastSetVisible p s b).propVisible = s.propVisible := by
  unfold toastSetVisible
  split <;> simp

@[simp] theorem toastSetVisible_visibleS (p : CToastProps) (s : ToastState)
    (b : Bool) : (toastSetVisible p s b).visibleS = b := by
  unfold toastSetVisible
  split
  · next h => exact h.symm
  · simp

@[simp] theorem alertUpdateTransition_propVisible (s : AlertState)
    (b : Bool) :
    (alertUpdateTransition s b).propVisible = s.propVisible := by
  unfold alertUpdateTransition
  split <;> rfl

@[simp] theorem alertUpdateTransition_visibleS (s : AlertState) (b : Bool) :
    (alertUpdateTransition s b).visibleS = s.visibleS := by
  unfold alertUpdateTransition
  split <;> rfl

@[simp] theorem alertSetVisible_propVisible (s : AlertState) (b : Bool) :
    (alertSetVisible s b).propVisible = s.propVisible := by
  unfold alertSetVisible
  split <;> simp

@[simp] theorem alertSetVisible_visibleS (s : AlertState) (b : Bool) :
    (alertSetVisible s b).visibleS = b := by
  unfold alertSetVisible
  split
  · next h => exact h.symm
  · simp

@[simp] theorem alertTransitionDone_propVisible (s : AlertState) :
    (alertTransitionDone s).propVisible = s.propVisible := by
  unfold alertTransitionDone
  split <;> rfl

@[simp] theorem alertTransitionDone_visibleS (s : AlertState) :
    (alertTransitionDone s).visibleS = s.visibleS := by
  unfold alertTransitionDone
  split <;> rfl

@[simp] theorem alertTransitionDone_onCloseCount (s : AlertState) :
    (alertTransitionDone s).onCloseCount = s.onCloseCount := by
  unfold alertTransitionDone
  split <;> rfl

/-! Shared concrete instances used across claims. -/

/-- `CToast` with every prop left at its default. -/
def toastDefault : CToastProps := resolveToastProps emptyToastIn

/-- `CAlert` with defaults plus `dismissible` set. -/
def alertDismissibleProps : CAlertProps :=
  { resolveAlertProps emptyAlertIn with dismissible := true }

/-- A reachable `CToast` state: mounted at time 0, shown via the `visible`
prop, enter transition completed, auto-hide timer pending for time
5000. -/
def toastVisibleState : ToastState :=
  toastRun toastDefault (CToast_mount toastDefault 0)
    [TEvent.setProp true, TEvent.transitionDone]

/-- A reachable `CAlert` state: mounted with `visible = true` (the
default), content rendered and `entered`. -/
def alertVisibleState : AlertState := CAlert_mount alertDismissibleProps

/-! Claim theorems. -/

/-- Claim C10: with every prop omitted, `CAlert` resolves `visible` to
true and is initially rendered, while `CToast` resolves `visible` to
false (initially not rendered) and additionally defaults `autohide` to
true, `delay` to 5000 and `animation` to true. -/
theorem C10_defaults :
    (resolveAlertProps emptyAlertIn).visible = true ∧
    rendered (CAlert_mount (resolveAlertProps emptyAlertIn)).trans = true ∧
    (resolveToastProps emptyToastIn).visible = false ∧
    (CToast_mount (resolveToastProps emptyToastIn) 0).visibleS = false ∧
    rendered (CToast_mount (resolveToastProps emptyToastIn) 0).trans
      = false ∧
    (resolveToastProps emptyToastIn).autohide = true ∧
    (resolveToastProps emptyToastIn).delay = 5000 ∧
    (resolveToastProps emptyToastIn).animation = true := by
  decide

/-- Claim C4: setting the visibility prop to its current value leaves the
widget state unchanged — in particular it produces no additional `onShow`
or `onClose` invocation — for `CToast` and for `CAlert` alike. -/
theorem C4_prop_write_idempotent (p : CToastProps) (s : ToastState)
    (sa : AlertState) :
    toastSetProp p s s.propVisible = s ∧
    (toastSetProp p s s.propVisible).onShowCount = s.onShowCount ∧
    (toastSetProp p s s.propVisible).onCloseCount = s.onCloseCount ∧
    alertSetProp sa sa.propVisible = sa ∧
    (alertSetProp sa sa.propVisible).onCloseCount = sa.onCloseCount := by
  refine ⟨?_, ?_, ?_, ?_, ?_⟩ <;> simp [toastSetProp, alertSetProp]

/-- Claim C8: the callback argument computation `index ? index : null`
sends `index = 0` (and an omitted index) to `null`, and a nonzero index to
itself; concretely, a `CToast` mounted with `index = 0` and shown has its
`onShow` called with `null`. -/
theorem C8_zero_index_is_null (k : Int) (hk : k ≠ 0) :
    toastCallbackArg (some 0) = none ∧
    toastCallbackArg none = none ∧
    toastCallbackArg (some k) = some k ∧
    (toastStep { toastDefault with index := some 0 }
        (CToast_mount { toastDefault with index := some 0 } 0)
        (TEvent.setProp true)).lastShowArg = some none := by
  refine ⟨by decide, by decide, ?_, by decide⟩
  simp [toastCallbackArg, jsTruthy, hk]

/-- Claim C8 witness. -/
theorem C8_zero_index_is_null_witness :
    toastCallbackArg (some 0) = none ∧
    toastCallbackArg none = none ∧
    toastCallbackArg (some 7) = some 7 ∧
    (toastStep { toastDefault with index := some 0 }
        (CToast_mount { toastDefault with index := some 0 } 0)
        (TEvent.setProp true)).lastShowArg = some none :=
  C8_zero_index_is_null 7 (by decide)

/-- Claim C7: numeric props are used unvalidated: for every delay value,
including zero and negative ones, `_autohide` arms the timeout with
exactly that delay and no error path exists (the equation holds
unconditionally); and the spec-modelled `CFormRange` markup carries any
`steps` value verbatim in its `step` attribute. -/
theorem C7_numeric_passthrough (p : CToastProps) (s : ToastState)
    (steps : Int) (hp : p.autohide = true) :
    (CToast_autohide p s).timer = some (s.now + p.delay) ∧
    getAttr (CFormRange_rootAttrs steps) kStep = some (toString steps) := by
  constructor
  · simp [CToast_autohide, hp]
  · simp [CFormRange_rootAttrs, getAttr, kType, kRange, kClassName,
          kFormRange, kStep]

/-- Claim C7 witness, with a negative delay and a negative steps value. -/
theorem C7_numeric_passthrough_witness :
    (CToast_autohide { toastDefault with delay := -3 } toastVisibleState).timer
      = some (toastVisibleState.now + ({ toastDefault with delay := -3 } :
          CToastProps).delay) ∧
    getAttr (CFormRange_rootAttrs (-7)) kStep = some (toString (-7 : Int)) :=
  C7_numeric_passthrough { toastDefault with delay := -3 } toastVisibleState
    (-7) rfl

/-- Claim C1 counterexample: for a dismissible `CAlert` (visible by
default), immediately after the close-button click the `onClose` callback
has already been invoked (`onExit` fires when the dismiss transition
begins) while the transition is still `exiting` — so the invocation is
not "on transition completion" as the claim states. -/
theorem C1_alert_onClose_at_exit_start :
    (alertStep alertDismissibleProps alertVisibleState
        AEvent.closeClick).onCloseCount = 1 ∧
    (alertStep alertDismissibleProps alertVisibleState
        AEvent.closeClick).trans = TState.exiting := by
  decide

/-- Claim C2 counterexample: for a default `CToast`, immediately after the
`visible` prop turns true the `onShow` callback has already been invoked
(`onEnter` fires when the enter transition begins) while the transition is
still `entering` — so the invocation happens at the start of the enter
transition, not at its completion as the claim states. -/
theorem C2_toast_onShow_at_enter_start :
    (toastStep toastDefault (CToast_mount toastDefault 0)
        (TEvent.setProp true)).onShowCount = 1 ∧
    (toastStep toastDefault (CToast_mount toastDefault 0)
        (TEvent.setProp true)).trans = TState.entering := by
  decide

/-- A reachable `CToast` state whose auto-hide timer is ripe: shown at
time 0, enter transition completed, 5000 ms elapsed. -/
def toastRipeState : ToastState :=
  toastRun toastDefault (CToast_mount toastDefault 0)
    [TEvent.setProp true, TEvent.transitionDone, TEvent.advance 5000]

/-- Claim C1 (amended): for a visible widget, each close action — the
close button (`CToast` context close, `CAlert` dismiss click), timer
expiry, or the `visible` prop set to false — starts the dismiss
transition, hides the widget (state `exited`, content unmounted) when it
completes, and invokes `onClose` exactly once: `CToast` invokes it on
transition completion (`onExited`) with the supplied index or null;
`CAlert` invokes it at the start of the dismiss transition (`onExit`),
and its `onClose` takes no argument. -/
theorem C1_close_once (p : CToastProps) (s : ToastState) (u : Int)
    (pa : CAlertProps) (sa : AlertState)
    (ht1 : s.visibleS = true) (ht2 : s.trans = TState.entered)
    (htp : s.propVisible = true) (hm : s.mounted = true)
    (htm : s.timer = some u) (htu : u ≤ s.now)
    (ha1 : sa.visibleS = true) (ha2 : sa.trans = TState.entered)
    (hap : sa.propVisible = true) (hd : pa.dismissible = true) :
    (toastStep p s TEvent.ctxClose).onCloseCount = s.onCloseCount ∧
    (toastStep p s TEvent.ctxClose).visibleS = false ∧
    (toastStep p s TEvent.ctxClose).trans = TState.exiting ∧
    (toastStep p (toastStep p s TEvent.ctxClose)
        TEvent.transitionDone).onCloseCount = s.onCloseCount + 1 ∧
    (toastStep p (toastStep p s TEvent.ctxClose)
        TEvent.transitionDone).trans = TState.exited ∧
    (toastStep p (toastStep p s TEvent.ctxClose)
        TEvent.transitionDone).lastCloseArg
      = some (toastCallbackArg p.index) ∧
    rendered (toastStep p (toastStep p s TEvent.ctxClose)
        TEvent.transitionDone).trans = false ∧
    (toastStep p s (TEvent.setProp false)).onCloseCount = s.onCloseCount ∧
    (toastStep p s (TEvent.setProp false)).visibleS = false ∧
    (toastStep p s (TEvent.setProp false)).trans = TState.exiting ∧
    (toastStep p (toastStep p s (TEvent.setProp false))
        TEvent.transitionDone).onCloseCount = s.onCloseCount + 1 ∧
    (toastStep p (toastStep p s (TEvent.setProp false))
        TEvent.transitionDone).trans = TState.exited ∧
    (toastStep p (toastStep p s (TEvent.setProp false))
        TEvent.transitionDone).lastCloseArg
      = some (toastCallbackArg p.index) ∧
    toastCanStep s TEvent.timerFire = true ∧
    (toastStep p s TEvent.timerFire).onCloseCount = s.onCloseCount ∧
    (toastStep p s TEvent.timerFire).visibleS = false ∧
    (toastStep p s TEvent.timerFire).trans = TState.exiting ∧
    (toastStep p (toastStep p s TEvent.timerFire)
        TEvent.transitionDone).onCloseCount = s.onCloseCount + 1 ∧
    (toastStep p (toastStep p s TEvent.timerFire)
        TEvent.transitionDone).trans = TState.exited ∧
    (toastStep p (toastStep p s TEvent.timerFire)
        TEvent.transitionDone).lastCloseArg
      = some (toastCallbackArg p.index) ∧
    (alertStep pa sa AEvent.closeClick).onCloseCount
      = sa.onCloseCount + 1 ∧
    (alertStep pa sa AEvent.closeClick).visibleS = false ∧
    (alertStep pa sa AEvent.closeClick).trans = TState.exiting ∧
    (alertStep pa (alertStep pa sa AEvent.closeClick)
        AEvent.transitionDone).onCloseCount = sa.onCloseCount + 1 ∧
    (alertStep pa (alertStep pa sa AEvent.closeClick)
        AEvent.transitionDone).trans = TState.exited ∧
    rendered (alertStep pa (alertStep pa sa AEvent.closeClick)
        AEvent.transitionDone).trans = false ∧
    (alertStep pa sa (AEvent.setProp false)).onCloseCount
      = sa.onCloseCount + 1 ∧
    (alertStep pa sa (AEvent.setProp false)).visibleS = false ∧
    (alertStep pa sa (AEvent.setProp false)).trans = TState.exiting := by
  simp [toastStep, toastSetProp, toastSetVisible, toastUpdateTransition,
        toastTransitionDone, toastCanStep, alertStep, alertSetProp,
        alertSetVisible, alertUpdateTransition, alertTransitionDone,
        rendered, ht1, ht2, htp, hm, htm, ha1, ha2, hap, hd, htu]

/-- Claim C1 witness at concrete reachable states. -/
theorem C1_close_once_witness :
    (toastStep toastDefault toastRipeState TEvent.ctxClose).onCloseCount = toastRipeState.onCloseCount ∧
    (toastStep toastDefault toastRipeState TEvent.ctxClose).visibleS = false ∧
    (toastStep toastDefault toastRipeState TEvent.ctxClose).trans = TState.exiting ∧
    (toastStep toastDefault (toastStep toastDefault toastRipeState TEvent.ctxClose)
        TEvent.transitionDone).onCloseCount = toastRipeState.onCloseCount + 1 ∧
    (toastStep toastDefault (toastStep toastDefault toastRipeState TEvent.ctxClose)
        TEvent.transitionDone).trans = TState.exited ∧
    (toastStep toastDefault (toastStep toastDefault toastRipeState TEvent.ctxClose)
        TEvent.transitionDone).lastCloseArg
      = some (toastCallbackArg toastDefault.index) ∧
    rendered (toastStep toastDefault (toastStep toastDefault toastRipeState TEvent.ctxClose)
        TEvent.transitionDone).trans = false ∧
    (toastStep toastDefault toastRipeState (TEvent.setProp false)).onCloseCount = toastRipeState.onCloseCount ∧
    (toastStep toastDefault toastRipeState (TEvent.setProp false)).visibleS = false ∧
    (toastStep toastDefault toastRipeState (TEvent.setProp false)).trans = TState.exiting ∧
    (toastStep toastDefault (toastStep toastDefault toastRipeState (TEvent.setProp false))
        TEvent.transitionDone).onCloseCount = toastRipeState.onCloseCount + 1 ∧
    (toastStep toastDefault (toastStep toastDefault toastRipeState (TEvent.setProp false))
        TEvent.transitionDone).trans = TState.exited ∧
    (toastStep toastDefault (toastStep toastDefault toastRipeState (TEvent.setProp false))
        TEvent.transitionDone).lastCloseArg
      = some (toastCallbackArg toastDefault.index) ∧
    toastCanStep toastRipeState TEvent.timerFire = true ∧
    (toastStep toastDefault toastRipeState TEvent.timerFire).onCloseCount = toastRipeState.onCloseCount ∧
    (toastStep toastDefault toastRipeState TEvent.timerFire).visibleS = false ∧
    (toastStep toastDefault toastRipeState TEvent.timerFire).trans = TState.exiting ∧
    (toastStep toastDefault (toastStep toastDefault toastRipeState TEvent.timerFire)
        TEvent.transitionDone).onCloseCount = toastRipeState.onCloseCount + 1 ∧
    (toastStep toastDefault (toastStep toastDefault toastRipeState TEvent.timerFire)
        TEvent.transitionDone).trans = TState.exited ∧
    (toastStep toastDefault (toastStep toastDefault toastRipeState TEvent.timerFire)
        TEvent.transitionDone).lastCloseArg
      = some (toastCallbackArg toastDefault.index) ∧
    (alertStep alertDismissibleProps alertVisibleState AEvent.closeClick).onCloseCount
      = alertVisibleState.onCloseCount + 1 ∧
    (alertStep alertDismissibleProps alertVisibleState AEvent.closeClick).visibleS = false ∧
    (alertStep alertDismissibleProps alertVisibleState AEvent.closeClick).trans = TState.exiting ∧
    (alertStep alertDismissibleProps (alertStep alertDismissibleProps alertVisibleState AEvent.closeClick)
        AEvent.transitionDone).onCloseCount = alertVisibleState.onCloseCount + 1 ∧
    (alertStep alertDismissibleProps (alertStep alertDismissibleProps alertVisibleState AEvent.closeClick)
        AEvent.transitionDone).trans = TState.exited ∧
    rendered (alertStep alertDismissibleProps (alertStep alertDismissibleProps alertVisibleState AEvent.closeClick)
        AEvent.transitionDone).trans = false ∧
    (alertStep alertDismissibleProps alertVisibleState (AEvent.setProp false)).onCloseCount
      = alertVisibleState.onCloseCount + 1 ∧
    (alertStep alertDismissibleProps alertVisibleState (AEvent.setProp false)).visibleS = false ∧
    (alertStep alertDismissibleProps alertVisibleState (AEvent.setProp false)).trans = TState.exiting :=
  C1_close_once toastDefault toastRipeState 5000 alertDismissibleProps
    alertVisibleState (by decide) (by decide) (by decide) (by decide)
    (by decide) (by decide) (by decide) (by decide) (by decide) rfl

/-- Claim C2 (amended): from the hidden steady state, setting the
`visible` prop to true transitions `CToast` to visible and invokes
`onShow` exactly once — at the start of the enter transition (`onEnter`),
with no further invocation when the transition completes. -/
theorem C2_show_once (p : CToastProps) (s : ToastState)
    (h1 : s.propVisible = false) (h2 : s.visibleS = false)
    (h3 : s.trans = TState.exited) :
    (toastStep p s (TEvent.setProp true)).onShowCount = s.onShowCount + 1 ∧
    (toastStep p s (TEvent.setProp true)).trans = TState.entering ∧
    (toastStep p s (TEvent.setProp true)).visibleS = true ∧
    (toastStep p s (TEvent.setProp true)).lastShowArg
      = some (toastCallbackArg p.index) ∧
    (toastStep p (toastStep p s (TEvent.setProp true))
        TEvent.transitionDone).onShowCount = s.onShowCount + 1 ∧
    (toastStep p (toastStep p s (TEvent.setProp true))
        TEvent.transitionDone).trans = TState.entered := by
  simp [toastStep, toastSetProp, toastSetVisible, toastUpdateTransition,
        toastTransitionDone, h1, h2, h3]

/-- Claim C2 witness at the freshly mounted default toast. -/
theorem C2_show_once_witness :
    (toastStep toastDefault (CToast_mount toastDefault 0)
        (TEvent.setProp true)).onShowCount
      = (CToast_mount toastDefault 0).onShowCount + 1 ∧
    (toastStep toastDefault (CToast_mount toastDefault 0)
        (TEvent.setProp true)).trans = TState.entering ∧
    (toastStep toastDefault (CToast_mount toastDefault 0)
        (TEvent.setProp true)).visibleS = true ∧
    (toastStep toastDefault (CToast_mount toastDefault 0)
        (TEvent.setProp true)).lastShowArg
      = some (toastCallbackArg toastDefault.index) ∧
    (toastStep toastDefault (toastStep toastDefault
        (CToast_mount toastDefault 0) (TEvent.setProp true))
        TEvent.transitionDone).onShowCount
      = (CToast_mount toastDefault 0).onShowCount + 1 ∧
    (toastStep toastDefault (toastStep toastDefault
        (CToast_mount toastDefault 0) (TEvent.setProp true))
        TEvent.transitionDone).trans = TState.entered :=
  C2_show_once toastDefault (CToast_mount toastDefault 0) (by decide)
    (by decide) (by decide)

/-- A `CAlert` mounted with `visible = false`: hidden, content not
mounted. -/
def alertHiddenState : AlertState :=
  CAlert_mount { alertDismissibleProps with visible := false }

/-- Claim C5: the local visibility state is synchronized to the external
`visible` prop after every prop change; writing false is literally the
same step as the widget's own close action, and writing true from the
hidden steady state starts the show transition — for `CToast` and
`CAlert` alike. -/
theorem C5_prop_sync (p : CToastProps) (pa : CAlertProps)
    (s : ToastState) (v : Bool) (sa : AlertState) (w : Bool)
    (sd : ToastState) (sad : AlertState)
    (ss : ToastState) (ssa : AlertState)
    (hv : v ≠ s.propVisible) (hw : w ≠ sa.propVisible)
    (hdp : sd.propVisible = true) (hdap : sad.propVisible = true)
    (hdd : pa.dismissible = true)
    (hs1 : ss.propVisible = false) (hs2 : ss.visibleS = false)
    (hs3 : ss.trans = TState.exited)
    (hsa1 : ssa.propVisible = false) (hsa2 : ssa.visibleS = false)
    (hsa3 : ssa.trans = TState.exited) :
    (toastSetProp p s v).visibleS = v ∧
    (alertSetProp sa w).visibleS = w ∧
    toastStep p sd (TEvent.setProp false)
      = toastStep p { sd with propVisible := false } TEvent.ctxClose ∧
    alertStep pa sad (AEvent.setProp false)
      = alertStep pa { sad with propVisible := false } AEvent.closeClick ∧
    (toastStep p ss (TEvent.setProp true)).trans = TState.entering ∧
    (toastStep p ss (TEvent.setProp true)).visibleS = true ∧
    (alertStep pa ssa (AEvent.setProp true)).trans = TState.entering ∧
    (alertStep pa ssa (AEvent.setProp true)).visibleS = true := by
  refine ⟨?_, ?_, ?_, ?_, ?_, ?_, ?_, ?_⟩
  · simp [toastSetProp, hv]
  · simp [alertSetProp, hw]
  · simp [toastStep, toastSetProp, hdp]
  · simp [alertStep, alertSetProp, hdap, hdd]
  · simp [toastStep, toastSetProp, toastSetVisible, toastUpdateTransition,
          hs1, hs2, hs3]
  · simp [toastStep, toastSetProp, hs1]
  · simp [alertStep, alertSetProp, alertSetVisible, alertUpdateTransition,
          hsa1, hsa2, hsa3]
  · simp [alertStep, alertSetProp, hsa1]

/-- Claim C5 witness at concrete reachable states. -/
theorem C5_prop_sync_witness :
    (toastSetProp toastDefault toastVisibleState false).visibleS = false ∧
    (alertSetProp alertVisibleState false).visibleS = false ∧
    toastStep toastDefault toastVisibleState (TEvent.setProp false)
      = toastStep toastDefault
          { toastVisibleState with propVisible := false } TEvent.ctxClose ∧
    alertStep alertDismissibleProps alertVisibleState (AEvent.setProp false)
      = alertStep alertDismissibleProps
          { alertVisibleState with propVisible := false }
          AEvent.closeClick ∧
    (toastStep toastDefault (CToast_mount toastDefault 0)
        (TEvent.setProp true)).trans = TState.entering ∧
    (toastStep toastDefault (CToast_mount toastDefault 0)
        (TEvent.setProp true)).visibleS = true ∧
    (alertStep alertDismissibleProps alertHiddenState
        (AEvent.setProp true)).trans = TState.entering ∧
    (alertStep alertDismissibleProps alertHiddenState
        (AEvent.setProp true)).visibleS = true :=
  C5_prop_sync toastDefault alertDismissibleProps toastVisibleState false
    alertVisibleState false toastVisibleState alertVisibleState
    (CToast_mount toastDefault 0) alertHiddenState (by decide) (by decide)
    (by decide) (by decide) (by decide) (by decide) (by decide) (by decide)
    (by decide) (by decide) (by decide)

/-- Lookup in a concatenated attribute list: the later (spread) part
wins. -/
theorem getAttr_append (xs ys : List Attr) (n : String) :
    getAttr (xs ++ ys) n =
      match getAttr ys n with
      | some v => some v
      | none => getAttr xs n := by
  induction xs with
  | nil => cases h : getAttr ys n <;> simp [getAttr, h]
  | cons a as ih =>
      simp only [List.cons_append, getAttr, List.append_eq] at ih ⊢
      rw [ih]
      cases h : getAttr ys n <;> simp [h]

/-- Lookup misses a list none of whose attribute names match. -/
theorem getAttr_of_names_ne (l : List Attr) (n : String)
    (h : ∀ a ∈ l, a.1 ≠ n) : getAttr l n = none := by
  induction l with
  | nil => rfl
  | cons a as ih =>
      have ha : a.1 ≠ n := h a (List.mem_cons_self a as)
      have hrest := ih (fun a' ha' => h a' (List.mem_cons_of_mem _ ha'))
      simp [getAttr, hrest, ha]

/-- An unrecognized attribute name and its value for the C6 witness. -/
def kDataAttr : String := "data-coreui"

def kDataVal : String := "x"

/-- Claim C6: an attribute outside the widget's typed prop set, supplied
in the rest-spread, appears verbatim (same name, same value) on the root
element of `CAlert` and of `CToast`, and the recognized rendered
attributes (`className`, `role`, the aria attributes) keep exactly their
computed values. -/
theorem C6_attribute_passthrough (p : CToastProps) (pa : CAlertProps)
    (t ta : TState) (rest : List Attr) (n v : String)
    (_hn1 : n ≠ kClassName) (_hn2 : n ≠ kRole) (_hn3 : n ≠ kAriaLive)
    (_hn4 : n ≠ kAriaAtomic) (hrest : getAttr rest n = some v)
    (hclean : ∀ a ∈ rest, a.1 ≠ kClassName ∧ a.1 ≠ kRole ∧
      a.1 ≠ kAriaLive ∧ a.1 ≠ kAriaAtomic) :
    getAttr (CAlert_rootAttrs pa ta rest) n = some v ∧
    getAttr (CAlert_rootAttrs pa ta rest) kClassName
      = some (joinClasses [alertClassName pa, alertTransitionClass ta]) ∧
    getAttr (CAlert_rootAttrs pa ta rest) kRole = some kAlertWord ∧
    getAttr (CToast_rootAttrs p t rest) n = some v ∧
    getAttr (CToast_rootAttrs p t rest) kClassName
      = some (joinClasses [toastClassName p, toastTransitionClass t]) ∧
    getAttr (CToast_rootAttrs p t rest) kRole = some kAlertWord ∧
    getAttr (CToast_rootAttrs p t rest) kAriaLive = some kAssertive := by
  have hcn : getAttr rest kClassName = none :=
    getAttr_of_names_ne rest kClassName (fun a ha => (hclean a ha).1)
  have hro : getAttr rest kRole = none :=
    getAttr_of_names_ne rest kRole (fun a ha => (hclean a ha).2.1)
  have hal : getAttr rest kAriaLive = none :=
    getAttr_of_names_ne rest kAriaLive (fun a ha => (hclean a ha).2.2.1)
  have hba : kRole ≠ kClassName := by decide
  have hbb : kAriaLive ≠ kClassName := by decide
  have hbc : kAriaAtomic ≠ kClassName := by decide
  have hbd : kRole ≠ kAriaLive := by decide
  have hbe : kAriaAtomic ≠ kAriaLive := by decide
  refine ⟨?_, ?_, ?_, ?_, ?_, ?_, ?_⟩ <;>
    simp [CAlert_rootAttrs, CToast_rootAttrs, getAttr_append, getAttr,
          hrest, hcn, hro, hal, hba, hbb, hbc, hbd, hbe]

/-- Claim C6 witness: a `data-coreui` attribute passed through both
widgets' roots. -/
theorem C6_attribute_passthrough_witness :
    getAttr (CAlert_rootAttrs alertDismissibleProps TState.entered
        [(kDataAttr, kDataVal)]) kDataAttr = some kDataVal ∧
    getAttr (CAlert_rootAttrs alertDismissibleProps TState.entered
        [(kDataAttr, kDataVal)]) kClassName
      = some (joinClasses [alertClassName alertDismissibleProps,
          alertTransitionClass TState.entered]) ∧
    getAttr (CAlert_rootAttrs alertDismissibleProps TState.entered
        [(kDataAttr, kDataVal)]) kRole = some kAlertWord ∧
    getAttr (CToast_rootAttrs toastDefault TState.entered
        [(kDataAttr, kDataVal)]) kDataAttr = some kDataVal ∧
    getAttr (CToast_rootAttrs toastDefault TState.entered
        [(kDataAttr, kDataVal)]) kClassName
      = some (joinClasses [toastClassName toastDefault,
          toastTransitionClass TState.entered]) ∧
    getAttr (CToast_rootAttrs toastDefault TState.entered
        [(kDataAttr, kDataVal)]) kRole = some kAlertWord ∧
    getAttr (CToast_rootAttrs toastDefault TState.entered
        [(kDataAttr, kDataVal)]) kAriaLive = some kAssertive :=
  C6_attribute_passthrough toastDefault alertDismissibleProps TState.entered
    TState.entered [(kDataAttr, kDataVal)] kDataAttr kDataVal (by decide)
    (by decide) (by decide) (by decide) (by decide) (by decide)

/-- Invariant preservation along valid traces of spontaneous events. -/
theorem toastRunInv (p : CToastProps) (P : ToastState → Prop)
    (hstep : ∀ s e, spontEvent e = true → toastCanStep s e = true → P s →
      P (toastStep p s e)) :
    ∀ evs s, (∀ e ∈ evs, spontEvent e = true) →
      toastValid p s evs = true → P s → P (toastRun p s evs) := by
  intro evs
  induction evs with
  | nil => intro s _ _ hP; exact hP
  | cons e es ih =>
      intro s hsp hv hP
      simp only [toastValid, Bool.and_eq_true] at hv
      exact ih (toastStep p s e)
        (fun e' he' => hsp e' (List.mem_cons_of_mem _ he'))
        hv.2 (hstep s e (hsp e (List.mem_cons_self e es)) hv.1 hP)

/-- The safety invariant behind claim C3, for a toast made visible at
time `t0`: time has reached `t0`, a hidden toast means at least 5000 ms
have passed since `t0`, and any pending timer fires no earlier than
`t0 + 5000`. -/
def hideOnlyInv (t0 : Int) (s : ToastState) : Prop :=
  t0 ≤ s.now ∧ (s.visibleS = false → t0 + 5000 ≤ s.now) ∧
    ∀ u, s.timer = some u → t0 + 5000 ≤ u

/-- Each valid spontaneous event preserves `hideOnlyInv` when
`delay = 5000`. -/
theorem hideOnlyInv_step (p : CToastProps) (t0 : Int) (hd : p.delay = 5000)
    (s : ToastState) (e : TEvent) (hsp : spontEvent e = true)
    (hg : toastCanStep s e = true) (hI : hideOnlyInv t0 s) :
    hideOnlyInv t0 (toastStep p s e) := by
  obtain ⟨h1, h2, h3⟩ := hI
  cases e with
  | advance d =>
      simp only [toastCanStep, Bool.and_eq_true, decide_eq_true_eq] at hg
      refine ⟨?_, ?_, ?_⟩
      · simp [toastStep]; omega
      · simp only [toastStep]
        intro hv
        have := h2 hv
        simp
        omega
      · simp only [toastStep]
        intro u hu
        exact h3 u hu
  | timerFire =>
      simp only [toastCanStep, Bool.and_eq_true] at hg
      obtain ⟨hm, hgt⟩ := hg
      cases htm : s.timer with
      | none => rw [htm] at hgt; simp at hgt
      | some u =>
          rw [htm] at hgt
          simp only [decide_eq_true_eq] at hgt
          have hu : t0 + 5000 ≤ u := h3 u htm
          by_cases hv : s.visibleS = true
          · cases hp : p.autohide <;> refine ⟨?_, ?_, ?_⟩ <;>
              simp [toastStep, toastSetVisible, CToast_autohide, hv, hp,
                    hd] <;> omega
          · have hv' : s.visibleS = false := by
              cases hb : s.visibleS
              · rfl
              · exact absurd hb hv
            refine ⟨?_, ?_, ?_⟩ <;>
              simp [toastStep, toastSetVisible, hv'] <;> omega
  | transitionDone =>
      refine ⟨?_, ?_, ?_⟩
      · simpa [toastStep] using h1
      · simpa [toastStep] using h2
      · simpa [toastStep] using h3
  | mouseEnter =>
      refine ⟨?_, ?_, ?_⟩
      · simpa [toastStep] using h1
      · simpa [toastStep] using h2
      · simp [toastStep]
  | mouseLeave =>
      exact ⟨h1, h2, h3⟩
  | setProp v => simp [spontEvent] at hsp
  | ctxClose => simp [spontEvent] at hsp
  | unmount => simp [spontEvent] at hsp

/-- Claim C3: with `autohide = true` and `delay = 5000`, showing the toast
at time `t0 = s.now` arms the single timer for exactly `t0 + 5000`
(cleared and re-armed on the visibility toggle); along any valid trace of
spontaneous events a hidden toast implies at least 5000 ms have elapsed;
the timer is cancelled by unmount and by mouse-enter; and no event at all
— in particular no timer firing — can validly occur after unmount. -/
theorem C3_autohide_only_after_delay (p : CToastProps) (s : ToastState)
    (evs : List TEvent) (e : TEvent)
    (hp : p.autohide = true) (hd : p.delay = 5000)
    (h1 : s.propVisible = false) (h2 : s.visibleS = false)
    (hsp : ∀ e' ∈ evs, spontEvent e' = true)
    (hv : toastValid p (toastStep p s (TEvent.setProp true)) evs = true)
    (hhid : (toastRun p (toastStep p s (TEvent.setProp true))
        evs).visibleS = false) :
    s.now + 5000
      ≤ (toastRun p (toastStep p s (TEvent.setProp true)) evs).now ∧
    (toastStep p s (TEvent.setProp true)).timer = some (s.now + 5000) ∧
    (toastStep p s TEvent.unmount).timer = none ∧
    (toastStep p s TEvent.mouseEnter).timer = none ∧
    toastCanStep (toastStep p s TEvent.unmount) e = false := by
  have hs1 : (toastStep p s (TEvent.setProp true)).timer
      = some (s.now + 5000) := by
    simp [toastStep, toastSetProp, toastSetVisible, CToast_autohide,
          h1, h2, hp, hd]
  have hInv : hideOnlyInv s.now (toastStep p s (TEvent.setProp true)) := by
    refine ⟨?_, ?_, ?_⟩
    · simp [toastStep, toastSetProp, h1]
    · simp [toastStep, toastSetProp, h1, h2]
    · intro u hu
      rw [hs1] at hu
      simp only [Option.some.injEq] at hu
      omega
  have hfin := toastRunInv p (hideOnlyInv s.now)
    (hideOnlyInv_step p s.now hd) evs _ hsp hv hInv
  refine ⟨hfin.2.1 hhid, hs1, by simp [toastStep], by simp [toastStep], ?_⟩
  cases e <;> simp [toastStep, toastCanStep]

/-- Claim C3 witness: the default toast shown at time 0 stays visible
until the timer validly fires at time 5000. -/
theorem C3_autohide_only_after_delay_witness :
    (CToast_mount toastDefault 0).now + 5000
      ≤ (toastRun toastDefault (toastStep toastDefault
          (CToast_mount toastDefault 0) (TEvent.setProp true))
          [TEvent.advance 5000, TEvent.timerFire]).now ∧
    (toastStep toastDefault (CToast_mount toastDefault 0)
        (TEvent.setProp true)).timer
      = some ((CToast_mount toastDefault 0).now + 5000) ∧
    (toastStep toastDefault (CToast_mount toastDefault 0)
        TEvent.unmount).timer = none ∧
    (toastStep toastDefault (CToast_mount toastDefault 0)
        TEvent.mouseEnter).timer = none ∧
    toastCanStep (toastStep toastDefault (CToast_mount toastDefault 0)
        TEvent.unmount) TEvent.timerFire = false :=
  C3_autohide_only_after_delay toastDefault (CToast_mount toastDefault 0)
    [TEvent.advance 5000, TEvent.timerFire] TEvent.timerFire (by decide)
    (by decide) (by decide) (by decide) (by decide) (by decide) (by decide)

/-- Along valid spontaneous traces, a visible toast with no pending timer
stays visible with no pending timer (the mouse-leave handler never calls
`_autohide`, and the guard forbids a cleared timer from firing). -/
theorem mouseClearInv_step (p : CToastProps) (s : ToastState) (e : TEvent)
    (hsp : spontEvent e = true) (hg : toastCanStep s e = true)
    (h1 : s.visibleS = true) (h2 : s.timer = none) :
    (toastStep p s e).visibleS = true ∧ (toastStep p s e).timer = none := by
  cases e with
  | advance d => simpa [toastStep] using ⟨h1, h2⟩
  | timerFire => rw [toastCanStep] at hg; rw [h2] at hg; simp at hg
  | transitionDone => simp [toastStep, h1, h2]
  | mouseEnter => simp [toastStep, h1]
  | mouseLeave => simpa [toastStep] using ⟨h1, h2⟩
  | setProp v => simp [spontEvent] at hsp
  | ctxClose => simp [spontEvent] at hsp
  | unmount => simp [spontEvent] at hsp

/-- Claim C9: on a visible toast, mouse-enter clears the pending auto-hide
timer; the subsequent mouse-leave is a no-op (the handler references
`_autohide` without calling it), so along any further valid trace of
spontaneous events the toast never auto-hides: it remains visible until a
visibility prop change. -/
theorem C9_mouse_enter_cancels_forever (p : CToastProps) (s : ToastState)
    (evs : List TEvent) (h1 : s.visibleS = true)
    (hsp : ∀ e ∈ evs, spontEvent e = true)
    (hv : toastValid p (toastStep p s TEvent.mouseEnter) evs = true) :
    (toastStep p s TEvent.mouseEnter).timer = none ∧
    toastStep p (toastStep p s TEvent.mouseEnter) TEvent.mouseLeave
      = toastStep p s TEvent.mouseEnter ∧
    (toastRun p (toastStep p s TEvent.mouseEnter) evs).visibleS = true := by
  have hme : (toastStep p s TEvent.mouseEnter).timer = none := by
    simp [toastStep]
  have hmv : (toastStep p s TEvent.mouseEnter).visibleS = true := by
    simp [toastStep, h1]
  refine ⟨hme, by simp [toastStep], ?_⟩
  exact (toastRunInv p (fun st => st.visibleS = true ∧ st.timer = none)
    (fun st e hsp' hg hP => mouseClearInv_step p st e hsp' hg hP.1 hP.2)
    evs (toastStep p s TEvent.mouseEnter) hsp hv ⟨hmv, hme⟩).1

/-- Claim C9 witness: after mouse-enter on the shown default toast, a
whole delay's worth of time passes and the toast is still visible. -/
theorem C9_mouse_enter_cancels_forever_witness :
    (toastStep toastDefault toastVisibleState TEvent.mouseEnter).timer
      = none ∧
    toastStep toastDefault (toastStep toastDefault toastVisibleState
        TEvent.mouseEnter) TEvent.mouseLeave
      = toastStep toastDefault toastVisibleState TEvent.mouseEnter ∧
    (toastRun toastDefault (toastStep toastDefault toastVisibleState
        TEvent.mouseEnter)
        [TEvent.mouseLeave, TEvent.advance 99999]).visibleS = true :=
  C9_mouse_enter_cancels_forever toastDefault toastVisibleState
    [TEvent.mouseLeave, TEvent.advance 99999] (by decide) (by decide)
    (by decide)
